import Mathlib

/-!
# vault-client: the AppRole handshake of `VaultClientService.Get`

A shallow embedding of `vault_client_service.go`.  The program is a straight line of
calls into other packages, so the embedding is world-passing: the remote services and
the libraries are oracles over an explicit world state `σ`, every network call of a run
is recorded (request and response) in the run's trace, and `logger.LogFatal` ends the
run with a `fatal` outcome.
-/

namespace VaultClient

/-! ## Data model -/

/-- Modelled from the spec: the options type `VaultClientOptions` is declared in a file
that is not part of the sources; the two fields are the ones the code reads
(`t.options.Endpoint`, `t.options.RoleName`). -/
structure VaultClientOptions where
  Endpoint : String
  RoleName : String
  deriving DecidableEq, Repr

/-- Modelled from the spec: `models.RoleContainer` is declared outside the sources; the
code reads `roleContainer.Data.Id`, a string.  This is the `Data` part. -/
structure RoleData where
  Id : String
  deriving DecidableEq, Repr

/-- Modelled from the spec: `models.RoleContainer`, the typed body of the role-id
response (`.Data.Id`). -/
structure RoleContainer where
  Data : RoleData
  deriving DecidableEq, Repr

/-- Modelled from the spec: the `Data` part of `models.SecretContainer`. -/
structure SecretIdData where
  Id : String
  deriving DecidableEq, Repr

/-- Modelled from the spec: `models.SecretContainer`, the typed body of the secret-id
response (`.Data.Id`). -/
structure SecretContainer where
  Data : SecretIdData
  deriving DecidableEq, Repr

/-- The URL a request holds: Go `*url.URL`, the result of parsing a string, represented
by its string form `u.String()`.  The string form need not be the string parsed. -/
structure URL where
  String : String
  deriving DecidableEq, Repr

/-- The part of `*http.Request` the code sets: method, the parsed URL and headers (in the
order they were added). -/
structure Request where
  Method : String
  URL : URL
  Header : List (String × String)
  deriving DecidableEq, Repr

/-- The struct `auth.SecretID` of the AppRole package: three alternative sources. -/
structure SecretID where
  FromFile : String
  FromEnv : String
  FromString : String
  deriving DecidableEq, Repr

/-- The struct `auth.AppRoleAuth` of the AppRole package. -/
structure AppRoleAuth where
  mountPath : String
  roleID : String
  secretID : String
  secretIDFile : String
  secretIDEnv : String
  unwrap : Bool
  deriving DecidableEq, Repr

/-- A value of Go type `any` in a secret payload, for the scalar cases.  The code never
looks inside a value: it hands the mapping on as it is. -/
inductive Any where
  | null
  | bool (b : Bool)
  | int (n : Int)
  | str (s : String)
  deriving DecidableEq, Repr

/-- Go `map[string]any`: the association list of the entries; `none` is the nil map. -/
abbrev SecretMap := Option (List (String × Any))

/-- The part of `*vault.KVSecret` the code reads: `secret.Data`. -/
structure KVSecret where
  Data : SecretMap
  deriving DecidableEq, Repr

/-- The part of `*vault.Secret` returned by a login (`authInfo`); the code only tests
the pointer for nil. -/
structure AuthInfo where
  ClientToken : String
  deriving DecidableEq, Repr

/-- Equality of Go results `(T, error)` is decidable. -/
instance instDecidableEqExcept {ε α : Type} [DecidableEq ε] [DecidableEq α] :
    DecidableEq (Except ε α)
  | .ok a, .ok b =>
    if h : a = b then isTrue (by rw [h]) else isFalse (fun h2 => h (Except.ok.inj h2))
  | .error a, .error b =>
    if h : a = b then isTrue (by rw [h]) else isFalse (fun h2 => h (Except.error.inj h2))
  | .ok _, .error _ => isFalse (fun h => Except.noConfusion h)
  | .error _, .ok _ => isFalse (fun h => Except.noConfusion h)

/-- One network call of a run, with what was sent and what came back. -/
inductive Event where
  /-- The call `t.roleContainerHttpClient.MakeRequest(request)`. -/
  | roleIdFetch (req : Request) (resp : Except String RoleContainer)
  /-- The call `t.secretContainerHttpClient.MakeRequest(request)`. -/
  | secretIdFetch (req : Request) (resp : Except String SecretContainer)
  /-- The call `vaultClient.Auth().Login(ctx, appRoleAuth)`. -/
  | login (cred : AppRoleAuth) (resp : Except String (Option AuthInfo))
  /-- The call `vaultClient.KVv2(engineName).Get(ctx, secretName)`. -/
  | read (engineName secretName : String) (resp : Except String KVSecret)
  deriving DecidableEq

/-- The four kinds of network call. -/
inductive Kind where
  | roleIdFetch
  | secretIdFetch
  | login
  | read
  deriving DecidableEq, Repr

/-- The kind of a recorded call. -/
def Event.kind : Event → Kind
  | .roleIdFetch _ _ => .roleIdFetch
  | .secretIdFetch _ _ => .secretIdFetch
  | .login _ _ => .login
  | .read _ _ _ => .read

/-- How a call ends: it returns a value, or `LogFatal` terminates the process (the
message is the one logged), or it never gets past `mutex.Lock()`. -/
inductive Outcome (α : Type) where
  | returned (v : α)
  | fatal (msg : String)
  | blocked
  deriving DecidableEq, Repr

/-- Go `HttpClient[T].MakeRequest`: a call against the world, answering a typed body or
an error. -/
abbrev HttpClient (σ α : Type) := σ → Request → Except String α × σ

/-- The receiver `VaultClientService`.  `mutex` is `true` while the lock is held; the
`logger` field is represented by `LogFatal` below. -/
structure VaultClientService (σ : Type) where
  mutex : Bool
  options : VaultClientOptions
  roleContainerHttpClient : HttpClient σ RoleContainer
  secretContainerHttpClient : HttpClient σ SecretContainer

/-- The packages the code is linked against.  `urlParse` is what `http.NewRequest` makes
of its URL argument: the error of `url.Parse`, or the URL it stores in the request;
`NewClient` is `vault.NewClient` applied to the default configuration with the given
address; `NewAppRoleAuth` is `auth.NewAppRoleAuth`; `Login` and `KVv2Get` are the two
calls made on the client. -/
structure Deps (σ κ : Type) where
  urlParse : String → Except String URL
  NewClient : σ → String → Except String κ
  NewAppRoleAuth : String → SecretID → Except String AppRoleAuth
  Login : σ → κ → AppRoleAuth → Except String (Option AuthInfo) × σ
  KVv2Get : σ → κ → String → String → Except String KVSecret × σ

/-- The result of running a method: outcome, the network calls made (oldest first), the
world afterwards and the receiver afterwards. -/
structure Run (σ α : Type) where
  outcome : Outcome α
  trace : List Event
  world : σ
  self : VaultClientService σ

/-! ## Operations -/

/-- Modelled from the spec: `logger.LogFatal(err, format, args...)` logs the formatted
message and terminates the process; the logger package is not part of the sources.
The argument is the formatted message. -/
def LogFatal {α : Type} (msg : String) : Outcome α :=
  .fatal msg

/-- Go `http.NewRequest(method, url, nil)` for the methods `GET` and `POST` (both valid
method tokens): it fails exactly when the string `url` does not parse, and otherwise
yields a request with that method, the parsed URL and no headers. -/
def NewRequest (urlParse : String → Except String URL) (method url : String) :
    Except String Request :=
  match urlParse url with
  | .error e => .error e
  | .ok u => .ok { Method := method, URL := u, Header := [] }

/-- Go `request.Header.Add(key, value)`. -/
def Request.addHeader (r : Request) (key value : String) : Request :=
  { r with Header := r.Header ++ [(key, value)] }

/-- Go `New(options, logger)`: a fresh service, with the zero-value (unlocked) mutex and
the two typed HTTP clients. -/
def New {σ : Type} (options : VaultClientOptions)
    (roleContainerHttpClient : HttpClient σ RoleContainer)
    (secretContainerHttpClient : HttpClient σ SecretContainer) : VaultClientService σ :=
  { mutex := false
    options := options
    roleContainerHttpClient := roleContainerHttpClient
    secretContainerHttpClient := secretContainerHttpClient }

/-- Go `(*VaultClientService).getRoleId`. -/
def getRoleId {σ κ : Type} (d : Deps σ κ) (t : VaultClientService σ) (s : σ)
    (token : String) : Run σ String :=
  let url := t.options.Endpoint ++ "/v1/auth/approle/role/" ++ t.options.RoleName ++ "/role-id"
  match NewRequest d.urlParse "GET" url with
  | .error e => ⟨LogFatal ("Vault exception: " ++ e), [], s, t⟩
  | .ok request0 =>
    let request := request0.addHeader "X-Vault-Token" token
    match t.roleContainerHttpClient s request with
    | (.error e, s1) =>
      ⟨LogFatal ("Vault exception: " ++ e), [.roleIdFetch request (.error e)], s1, t⟩
    | (.ok roleContainer, s1) =>
      ⟨.returned roleContainer.Data.Id, [.roleIdFetch request (.ok roleContainer)], s1, t⟩

/-- Go `(*VaultClientService).getSecretId`. -/
def getSecretId {σ κ : Type} (d : Deps σ κ) (t : VaultClientService σ) (s : σ)
    (token : String) : Run σ SecretID :=
  let url := t.options.Endpoint ++ "/v1/auth/approle/role/" ++ t.options.RoleName ++ "/secret-id"
  match NewRequest d.urlParse "POST" url with
  | .error e => ⟨LogFatal ("Vault exception: " ++ e), [], s, t⟩
  | .ok request0 =>
    let request := request0.addHeader "X-Vault-Token" token
    match t.secretContainerHttpClient s request with
    | (.error e, s1) =>
      ⟨LogFatal ("Vault exception: " ++ e), [.secretIdFetch request (.error e)], s1, t⟩
    | (.ok roleContainer, s1) =>
      ⟨.returned { FromFile := "", FromEnv := "", FromString := roleContainer.Data.Id },
        [.secretIdFetch request (.ok roleContainer)], s1, t⟩

/-- Go `(*VaultClientService).Get`.  The receiver of a run that does not return keeps
the lock: process exit runs no deferred call. -/
def Get {σ κ : Type} (d : Deps σ κ) (t : VaultClientService σ) (s : σ)
    (token engineName secretName : String) : Run σ SecretMap :=
  if t.mutex then ⟨.blocked, [], s, t⟩
  else
    let t := { t with mutex := true }
    match d.NewClient s t.options.Endpoint with
    | .error e => ⟨LogFatal ("Vault exception: " ++ e), [], s, t⟩
    | .ok vaultClient =>
      let r1 := getRoleId d t s token
      match r1.outcome with
      | .blocked => ⟨.blocked, r1.trace, r1.world, t⟩
      | .fatal m => ⟨.fatal m, r1.trace, r1.world, t⟩
      | .returned roleId =>
        let r2 := getSecretId d t r1.world token
        match r2.outcome with
        | .blocked => ⟨.blocked, r1.trace ++ r2.trace, r2.world, t⟩
        | .fatal m => ⟨.fatal m, r1.trace ++ r2.trace, r2.world, t⟩
        | .returned secretId =>
          match d.NewAppRoleAuth roleId secretId with
          | .error e =>
            ⟨LogFatal ("Unable to initialize AppRole auth method: " ++ e),
              r1.trace ++ r2.trace, r2.world, t⟩
          | .ok appRoleAuth =>
            match d.Login r2.world vaultClient appRoleAuth with
            | (.error e, s3) =>
              ⟨LogFatal ("Unable to login to AppRole auth method: " ++ e),
                r1.trace ++ r2.trace ++ [.login appRoleAuth (.error e)], s3, t⟩
            | (.ok none, s3) =>
              ⟨LogFatal "No auth info was returned after login",
                r1.trace ++ r2.trace ++ [.login appRoleAuth (.ok none)], s3, t⟩
            | (.ok (some authInfo), s3) =>
              match d.KVv2Get s3 vaultClient engineName secretName with
              | (.error e, s4) =>
                ⟨LogFatal ("Unable to read secret: " ++ e),
                  r1.trace ++ r2.trace ++ [.login appRoleAuth (.ok (some authInfo)),
                    .read engineName secretName (.error e)], s4, t⟩
              | (.ok secret, s4) =>
                ⟨.returned secret.Data,
                  r1.trace ++ r2.trace ++ [.login appRoleAuth (.ok (some authInfo)),
                    .read engineName secretName (.ok secret)], s4,
                  { t with mutex := false }⟩

/-- A sequence of `Get` calls on one instance, one after the other, each given as
`(token, engineName, secretName)`: the values returned, in order.  A call that does not
return ends the sequence (the process is gone, or stuck). -/
def GetCalls {σ κ : Type} (d : Deps σ κ) (t : VaultClientService σ) (s : σ) :
    List (String × String × String) → Run σ (List SecretMap)
  | [] => ⟨.returned [], [], s, t⟩
  | (token, engineName, secretName) :: rest =>
    let r := Get d t s token engineName secretName
    match r.outcome with
    | .blocked => ⟨.blocked, r.trace, r.world, r.self⟩
    | .fatal m => ⟨.fatal m, r.trace, r.world, r.self⟩
    | .returned v =>
      let rs := GetCalls d r.self r.world rest
      match rs.outcome with
      | .blocked => ⟨.blocked, r.trace ++ rs.trace, rs.world, rs.self⟩
      | .fatal m => ⟨.fatal m, r.trace ++ rs.trace, rs.world, rs.self⟩
      | .returned vs => ⟨.returned (v :: vs), r.trace ++ rs.trace, rs.world, rs.self⟩

/-! ## What the specification prescribes -/

/-- The URL string of the role-id request as the specification words it:
`{endpoint}/v1/auth/approle/role/{roleName}/role-id`. -/
def roleIdUrl (o : VaultClientOptions) : String :=
  o.Endpoint ++ "/v1/auth/approle/role/" ++ o.RoleName ++ "/role-id"

/-- The URL string of the secret-id request as the specification words it:
`{endpoint}/v1/auth/approle/role/{roleName}/secret-id`. -/
def secretIdUrl (o : VaultClientOptions) : String :=
  o.Endpoint ++ "/v1/auth/approle/role/" ++ o.RoleName ++ "/secret-id"

/-- The role-id request as the specification words it, for a parsed URL `u`: `GET` to
`u` with the caller token in the header `X-Vault-Token`. -/
def roleIdRequest (u : URL) (token : String) : Request :=
  { Method := "GET"
    URL := u
    Header := [("X-Vault-Token", token)] }

/-- The secret-id request as the specification words it, for a parsed URL `u`: `POST`
to `u` with the same token header. -/
def secretIdRequest (u : URL) (token : String) : Request :=
  { Method := "POST"
    URL := u
    Header := [("X-Vault-Token", token)] }

/-- The order of the network calls in the specification. -/
def handshake : List Kind :=
  [.roleIdFetch, .secretIdFetch, .login, .read]

/-- Every step of a `Get` call succeeds, with secret `secret` read at the end: client
construction, the role-id fetch (request construction and round trip), the secret-id
fetch, credential construction, a login with a session, and the read. -/
def StepsSucceed {σ κ : Type} (d : Deps σ κ) (t : VaultClientService σ) (s : σ)
    (token engineName secretName : String) (secret : KVSecret) : Prop :=
  ∃ (vaultClient : κ) (u1 : URL) (rc : RoleContainer) (s1 : σ) (u2 : URL)
    (sc : SecretContainer) (s2 : σ) (cred : AppRoleAuth) (authInfo : AuthInfo) (s3 s4 : σ),
    d.NewClient s t.options.Endpoint = .ok vaultClient ∧
    d.urlParse (roleIdUrl t.options) = .ok u1 ∧
    t.roleContainerHttpClient s (roleIdRequest u1 token) = (.ok rc, s1) ∧
    d.urlParse (secretIdUrl t.options) = .ok u2 ∧
    t.secretContainerHttpClient s1 (secretIdRequest u2 token) = (.ok sc, s2) ∧
    d.NewAppRoleAuth rc.Data.Id { FromFile := "", FromEnv := "", FromString := sc.Data.Id }
      = .ok cred ∧
    d.Login s2 vaultClient cred = (.ok (some authInfo), s3) ∧
    d.KVv2Get s3 vaultClient engineName secretName = (.ok secret, s4)

/-! ## The libraries behind `Deps` -/

/-- The method `validate` of `auth.SecretID` in the AppRole package of the Vault API
(a dependency, not part of the sources): exactly one source must be given. -/
def SecretID.validate (secretID : SecretID) : Option String :=
  if secretID.FromFile = "" ∧ secretID.FromEnv = "" ∧ secretID.FromString = "" then
    some "secret ID for AppRole must be provided with a source file, environment variable, or plaintext string"
  else if secretID.FromFile ≠ "" ∧ (secretID.FromEnv ≠ "" ∨ secretID.FromString ≠ "") then
    some "only one source for the secret ID should be specified"
  else if secretID.FromEnv ≠ "" ∧ (secretID.FromFile ≠ "" ∨ secretID.FromString ≠ "") then
    some "only one source for the secret ID should be specified"
  else if secretID.FromString ≠ "" ∧ (secretID.FromFile ≠ "" ∨ secretID.FromEnv ≠ "") then
    some "only one source for the secret ID should be specified"
  else none

/-- The constructor `auth.NewAppRoleAuth(roleID, secretID)` of the AppRole package of
the Vault API (a dependency, not part of the sources), called without login options
and with a non-nil secret id, as `Get` calls it. -/
def NewAppRoleAuth (roleID : String) (secretID : SecretID) : Except String AppRoleAuth :=
  if roleID = "" then .error "no role ID provided for login"
  else
    match secretID.validate with
    | some e => .error ("invalid secret ID: " ++ e)
    | none =>
      .ok { mountPath := "approle"
            roleID := roleID
            secretID := if secretID.FromString ≠ "" then secretID.FromString else ""
            secretIDFile := if secretID.FromFile ≠ "" then secretID.FromFile else ""
            secretIDEnv := if secretID.FromEnv ≠ "" then secretID.FromEnv else ""
            unwrap := false }

/-- Go `stringContainsCTLByte` of `net/url`: some byte is below the space or is `0x7f`.
Such bytes are single-byte characters, so the test is made per character. -/
def stringContainsCTLByte (s : String) : Bool :=
  s.data.any fun c => decide (c.toNat < 32) || decide (c.toNat = 127)

/-- The backslash, as a string. -/
def backslash : String :=
  String.singleton (Char.ofNat 92)

/-- A lower-case hexadecimal digit. -/
def hexDigit (n : Nat) : Char :=
  if n < 10 then Char.ofNat (48 + n) else Char.ofNat (87 + n)

/-- Go `strconv.Quote` on one ASCII character: the quote and the backslash are escaped,
the control characters are written with their letter or as `\x` and two hexadecimal
digits, and the printable characters stand for themselves. -/
def quoteChar (c : Char) : String :=
  if c.toNat = 34 then backslash ++ String.singleton c
  else if c.toNat = 92 then backslash ++ backslash
  else if c.toNat = 7 then backslash ++ "a"
  else if c.toNat = 8 then backslash ++ "b"
  else if c.toNat = 12 then backslash ++ "f"
  else if c.toNat = 10 then backslash ++ "n"
  else if c.toNat = 13 then backslash ++ "r"
  else if c.toNat = 9 then backslash ++ "t"
  else if c.toNat = 11 then backslash ++ "v"
  else if c.toNat < 32 ∨ c.toNat = 127 then
    backslash ++ "x" ++ String.mk [hexDigit (c.toNat / 16), hexDigit (c.toNat % 16)]
  else String.singleton c

/-- Go `strconv.Quote` (the verb `%q`) on an ASCII string. -/
def quote (s : String) : String :=
  String.singleton (Char.ofNat 34) ++ String.join (s.data.map quoteChar)
    ++ String.singleton (Char.ofNat 34)

/-- Go `escape(path, encodePath)` of `net/url` on a path whose only character in need of
escaping is the space: each space becomes `%20`. -/
def escapeSpaces (s : String) : String :=
  String.join (s.data.map fun c => if c.toNat = 32 then "%20" else String.singleton c)

/-- A stand-in for `url.Parse` as `http.NewRequest` and `vault.NewClient` call it, for
the URLs of the examples below.  It is `url.Parse` followed by `String()` on the strings
`http://host:port` and `http://host:port/path` whose host is made of lower-case letters,
digits, dots and hyphens, whose port is one or more digits and whose path is made of `/`, letters,
digits, `-`, `_`, `.`, `~`, spaces and control characters: a control character is
refused, with the message of `url.Error`, and otherwise the URL is accepted and its path
is written with `%20` for each space.  On other strings it is not meant to agree with
`net/url`. -/
def exampleUrlParse (rawURL : String) : Except String URL :=
  if stringContainsCTLByte rawURL then
    .error ("parse " ++ quote rawURL ++ ": net/url: invalid control character in URL")
  else .ok ⟨escapeSpaces rawURL⟩

/-! ## A concrete world

The world state counts the network calls made so far.  The services answer with fixed
responses, given as parameters. -/

/-- A typed HTTP client that answers every request with `resp`. -/
def fixedHttpClient {α : Type} (resp : Except String α) : HttpClient Nat α :=
  fun s _ => (resp, s + 1)

/-- A service instance made by `New` whose two control-API endpoints answer with the
given responses. -/
def fixedService (o : VaultClientOptions) (roleResp : Except String RoleContainer)
    (secretResp : Except String SecretContainer) : VaultClientService Nat :=
  New o (fixedHttpClient roleResp) (fixedHttpClient secretResp)

/-- Libraries for the concrete world: URLs are parsed by `exampleUrlParse`, client
construction parses the address and fails when it is refused (the client is its
address), credentials are built by the AppRole package, and login and read answer with
the given responses. -/
def fixedDeps (loginResp : Except String (Option AuthInfo))
    (kvResp : Except String KVSecret) : Deps Nat String :=
  { urlParse := exampleUrlParse
    NewClient := fun _ address =>
      match exampleUrlParse address with
      | .error e => .error e
      | .ok _ => .ok address
    NewAppRoleAuth := NewAppRoleAuth
    Login := fun s _ _ => (loginResp, s + 1)
    KVv2Get := fun s _ _ _ => (kvResp, s + 1) }

/-- Options of the scenario of the specification. -/
def scenarioOptions : VaultClientOptions :=
  { Endpoint := "http://vault:8200", RoleName := "app" }

/-- The secret of the scenario of the specification. -/
def scenarioSecret : KVSecret :=
  { Data := some [("username", .str "u"), ("password", .str "p")] }

/-- The service of the scenario: role id `role-abc`, secret id `secret-xyz`. -/
def scenarioService : VaultClientService Nat :=
  fixedService scenarioOptions (.ok ⟨⟨"role-abc"⟩⟩) (.ok ⟨⟨"secret-xyz"⟩⟩)

/-- The libraries of the scenario: login yields a session, the read yields the secret. -/
def scenarioDeps : Deps Nat String :=
  fixedDeps (.ok (some ⟨"session-1"⟩)) (.ok scenarioSecret)

end VaultClient

namespace VaultClient

/-! ## The shape of a run -/

section Shape

variable {σ κ : Type} (d : Deps σ κ) (t : VaultClientService σ) (s : σ)
  (token engineName secretName : String)

/-- The run of `getRoleId`, by the parse of the URL string and the answer of the HTTP
client. -/
theorem getRoleId_run :
    getRoleId d t s token =
      match d.urlParse (roleIdUrl t.options) with
      | .error e => ⟨.fatal ("Vault exception: " ++ e), [], s, t⟩
      | .ok u =>
        match t.roleContainerHttpClient s (roleIdRequest u token) with
        | (.error e, s1) =>
          ⟨.fatal ("Vault exception: " ++ e),
            [.roleIdFetch (roleIdRequest u token) (.error e)], s1, t⟩
        | (.ok rc, s1) =>
          ⟨.returned rc.Data.Id, [.roleIdFetch (roleIdRequest u token) (.ok rc)], s1, t⟩ := by
  unfold getRoleId NewRequest
  simp only [roleIdUrl]
  cases d.urlParse (t.options.Endpoint ++ "/v1/auth/approle/role/" ++ t.options.RoleName
    ++ "/role-id") with
  | error e => rfl
  | ok u => rfl

/-- The run of `getSecretId`, by the parse of the URL string and the answer of the HTTP
client. -/
theorem getSecretId_run :
    getSecretId d t s token =
      match d.urlParse (secretIdUrl t.options) with
      | .error e => ⟨.fatal ("Vault exception: " ++ e), [], s, t⟩
      | .ok u =>
        match t.secretContainerHttpClient s (secretIdRequest u token) with
        | (.error e, s1) =>
          ⟨.fatal ("Vault exception: " ++ e),
            [.secretIdFetch (secretIdRequest u token) (.error e)], s1, t⟩
        | (.ok sc, s1) =>
          ⟨.returned { FromFile := "", FromEnv := "", FromString := sc.Data.Id },
            [.secretIdFetch (secretIdRequest u token) (.ok sc)], s1, t⟩ := by
  unfold getSecretId NewRequest
  simp only [secretIdUrl]
  cases d.urlParse (t.options.Endpoint ++ "/v1/auth/approle/role/" ++ t.options.RoleName
    ++ "/secret-id") with
  | error e => rfl
  | ok u => rfl

/-- Every run of `Get` has one of eleven shapes, one for each place where the code can
stop; each shape fixes the whole run from the answers of the collaborators. -/
theorem Get_shape :
    (t.mutex = true ∧ Get d t s token engineName secretName = ⟨.blocked, [], s, t⟩) ∨
    (t.mutex = false ∧
      ((∃ e, d.NewClient s t.options.Endpoint = .error e ∧
          Get d t s token engineName secretName =
            ⟨.fatal ("Vault exception: " ++ e), [], s, { t with mutex := true }⟩) ∨
       (∃ c, d.NewClient s t.options.Endpoint = .ok c ∧
        ((∃ e, d.urlParse (roleIdUrl t.options) = .error e ∧
            Get d t s token engineName secretName =
              ⟨.fatal ("Vault exception: " ++ e), [], s, { t with mutex := true }⟩) ∨
         (∃ u1, d.urlParse (roleIdUrl t.options) = .ok u1 ∧
          ∃ resp1 s1, t.roleContainerHttpClient s (roleIdRequest u1 token) = (resp1, s1) ∧
          ((∃ e, resp1 = .error e ∧
              Get d t s token engineName secretName =
                ⟨.fatal ("Vault exception: " ++ e),
                  [.roleIdFetch (roleIdRequest u1 token) resp1], s1,
                  { t with mutex := true }⟩) ∨
           (∃ rc, resp1 = .ok rc ∧
            ((∃ e, d.urlParse (secretIdUrl t.options) = .error e ∧
                Get d t s token engineName secretName =
                  ⟨.fatal ("Vault exception: " ++ e),
                    [.roleIdFetch (roleIdRequest u1 token) resp1], s1,
                    { t with mutex := true }⟩) ∨
             (∃ u2, d.urlParse (secretIdUrl t.options) = .ok u2 ∧
              ∃ resp2 s2,
                t.secretContainerHttpClient s1 (secretIdRequest u2 token) = (resp2, s2) ∧
              ((∃ e, resp2 = .error e ∧
                  Get d t s token engineName secretName =
                    ⟨.fatal ("Vault exception: " ++ e),
                      [.roleIdFetch (roleIdRequest u1 token) resp1,
                        .secretIdFetch (secretIdRequest u2 token) resp2], s2,
                      { t with mutex := true }⟩) ∨
               (∃ sc, resp2 = .ok sc ∧
                ((∃ e, d.NewAppRoleAuth rc.Data.Id
                      { FromFile := "", FromEnv := "", FromString := sc.Data.Id } = .error e ∧
                    Get d t s token engineName secretName =
                      ⟨.fatal ("Unable to initialize AppRole auth method: " ++ e),
                        [.roleIdFetch (roleIdRequest u1 token) resp1,
                          .secretIdFetch (secretIdRequest u2 token) resp2], s2,
                        { t with mutex := true }⟩) ∨
                 (∃ cred, d.NewAppRoleAuth rc.Data.Id
                      { FromFile := "", FromEnv := "", FromString := sc.Data.Id } = .ok cred ∧
                  ∃ resp3 s3, d.Login s2 c cred = (resp3, s3) ∧
                  ((∃ e, resp3 = .error e ∧
                      Get d t s token engineName secretName =
                        ⟨.fatal ("Unable to login to AppRole auth method: " ++ e),
                          [.roleIdFetch (roleIdRequest u1 token) resp1,
                            .secretIdFetch (secretIdRequest u2 token) resp2,
                            .login cred resp3], s3, { t with mutex := true }⟩) ∨
                   (resp3 = .ok none ∧
                      Get d t s token engineName secretName =
                        ⟨.fatal "No auth info was returned after login",
                          [.roleIdFetch (roleIdRequest u1 token) resp1,
                            .secretIdFetch (secretIdRequest u2 token) resp2,
                            .login cred resp3], s3, { t with mutex := true }⟩) ∨
                   (∃ authInfo, resp3 = .ok (some authInfo) ∧
                    ∃ resp4 s4, d.KVv2Get s3 c engineName secretName = (resp4, s4) ∧
                    ((∃ e, resp4 = .error e ∧
                        Get d t s token engineName secretName =
                          ⟨.fatal ("Unable to read secret: " ++ e),
                            [.roleIdFetch (roleIdRequest u1 token) resp1,
                              .secretIdFetch (secretIdRequest u2 token) resp2,
                              .login cred resp3,
                              .read engineName secretName resp4], s4,
                            { t with mutex := true }⟩) ∨
                     (∃ secret, resp4 = .ok secret ∧
                        Get d t s token engineName secretName =
                          ⟨.returned secret.Data,
                            [.roleIdFetch (roleIdRequest u1 token) resp1,
                              .secretIdFetch (secretIdRequest u2 token) resp2,
                              .login cred resp3,
                              .read engineName secretName resp4], s4,
                            { t with mutex := false }⟩))))))))))))))))) := by
  cases hm : t.mutex with
  | true => left; exact ⟨rfl, by simp [Get, hm]⟩
  | false =>
    right; refine ⟨rfl, ?_⟩
    cases hc : d.NewClient s t.options.Endpoint with
    | error e => left; exact ⟨e, rfl, by simp [Get, hm, hc, LogFatal]⟩
    | ok c =>
      right; refine ⟨c, rfl, ?_⟩
      cases hu : d.urlParse (roleIdUrl t.options) with
      | error e =>
        left; refine ⟨e, rfl, ?_⟩
        simp [Get, hm, hc, getRoleId_run, hu]
      | ok u1 =>
        right; refine ⟨u1, rfl, ?_⟩
        rcases h1 : t.roleContainerHttpClient s (roleIdRequest u1 token) with ⟨resp1, s1⟩
        refine ⟨resp1, s1, rfl, ?_⟩
        cases resp1 with
        | error e =>
          left; refine ⟨e, rfl, ?_⟩
          simp [Get, hm, hc, getRoleId_run, hu, h1]
        | ok rc =>
          right; refine ⟨rc, rfl, ?_⟩
          cases hu2 : d.urlParse (secretIdUrl t.options) with
          | error e =>
            left; refine ⟨e, rfl, ?_⟩
            simp [Get, hm, hc, getRoleId_run, hu, h1, getSecretId_run, hu2]
          | ok u2 =>
            right; refine ⟨u2, rfl, ?_⟩
            rcases h2 : t.secretContainerHttpClient s1 (secretIdRequest u2 token)
              with ⟨resp2, s2⟩
            refine ⟨resp2, s2, rfl, ?_⟩
            cases resp2 with
            | error e =>
              left; refine ⟨e, rfl, ?_⟩
              simp [Get, hm, hc, getRoleId_run, hu, h1, getSecretId_run, hu2, h2]
            | ok sc =>
              right; refine ⟨sc, rfl, ?_⟩
              cases ha : d.NewAppRoleAuth rc.Data.Id
                  { FromFile := "", FromEnv := "", FromString := sc.Data.Id } with
              | error e =>
                left; refine ⟨e, rfl, ?_⟩
                simp [Get, hm, hc, getRoleId_run, hu, h1, getSecretId_run, hu2, h2, ha,
                  LogFatal]
              | ok cred =>
                right; refine ⟨cred, rfl, ?_⟩
                rcases h3 : d.Login s2 c cred with ⟨resp3, s3⟩
                refine ⟨resp3, s3, rfl, ?_⟩
                cases resp3 with
                | error e =>
                  left; refine ⟨e, rfl, ?_⟩
                  simp [Get, hm, hc, getRoleId_run, hu, h1, getSecretId_run, hu2, h2, ha,
                    h3, LogFatal]
                | ok o =>
                  cases o with
                  | none =>
                    right; left; refine ⟨rfl, ?_⟩
                    simp [Get, hm, hc, getRoleId_run, hu, h1, getSecretId_run, hu2, h2, ha,
                      h3, LogFatal]
                  | some authInfo =>
                    right; right; refine ⟨authInfo, rfl, ?_⟩
                    rcases h4 : d.KVv2Get s3 c engineName secretName with ⟨resp4, s4⟩
                    refine ⟨resp4, s4, rfl, ?_⟩
                    cases resp4 with
                    | error e =>
                      left; refine ⟨e, rfl, ?_⟩
                      simp [Get, hm, hc, getRoleId_run, hu, h1, getSecretId_run, hu2, h2,
                        ha, h3, h4, LogFatal]
                    | ok secret =>
                      right; refine ⟨secret, rfl, ?_⟩
                      simp [Get, hm, hc, getRoleId_run, hu, h1, getSecretId_run, hu2, h2,
                        ha, h3, h4]

/-- A call that returns has made exactly the four network calls, in order. -/
theorem Get_kinds_of_returned (v : SecretMap)
    (h : (Get d t s token engineName secretName).outcome = .returned v) :
    (Get d t s token engineName secretName).trace.map Event.kind = handshake := by
  rcases Get_shape d t s token engineName secretName with
    ⟨hm, hG⟩ | ⟨hm, ⟨e, hc, hG⟩ | ⟨c, hc, ⟨e, hu, hG⟩ | ⟨u1, hu, resp1, s1, h1, ⟨e, hr, hG⟩ |
    ⟨rc, hr, ⟨e, hu2, hG⟩ | ⟨u2, hu2, resp2, s2, h2, ⟨e, hs, hG⟩ | ⟨sc, hs, ⟨e, ha, hG⟩ |
    ⟨cred, ha, resp3, s3, h3, ⟨e, hl, hG⟩ | ⟨hl, hG⟩ |
    ⟨authInfo, hl, resp4, s4, h4, ⟨e, hk, hG⟩ | ⟨secret, hk, hG⟩⟩⟩⟩⟩⟩⟩⟩⟩
  all_goals rw [hG] at h ⊢
  all_goals first
    | exact Outcome.noConfusion h
    | rfl

/-- A call never changes the options or the HTTP clients of its receiver. -/
theorem Get_self_fields :
    (Get d t s token engineName secretName).self.options = t.options ∧
    (Get d t s token engineName secretName).self.roleContainerHttpClient
      = t.roleContainerHttpClient ∧
    (Get d t s token engineName secretName).self.secretContainerHttpClient
      = t.secretContainerHttpClient := by
  rcases Get_shape d t s token engineName secretName with
    ⟨hm, hG⟩ | ⟨hm, ⟨e, hc, hG⟩ | ⟨c, hc, ⟨e, hu, hG⟩ | ⟨u1, hu, resp1, s1, h1, ⟨e, hr, hG⟩ |
    ⟨rc, hr, ⟨e, hu2, hG⟩ | ⟨u2, hu2, resp2, s2, h2, ⟨e, hs, hG⟩ | ⟨sc, hs, ⟨e, ha, hG⟩ |
    ⟨cred, ha, resp3, s3, h3, ⟨e, hl, hG⟩ | ⟨hl, hG⟩ |
    ⟨authInfo, hl, resp4, s4, h4, ⟨e, hk, hG⟩ | ⟨secret, hk, hG⟩⟩⟩⟩⟩⟩⟩⟩⟩
  all_goals rw [hG]
  all_goals exact ⟨rfl, rfl, rfl⟩

/-- A call that found the lock free and returns leaves its receiver as it found it. -/
theorem Get_self_of_returned (hfree : t.mutex = false) (v : SecretMap)
    (h : (Get d t s token engineName secretName).outcome = .returned v) :
    (Get d t s token engineName secretName).self = t := by
  rcases Get_shape d t s token engineName secretName with
    ⟨hm, hG⟩ | ⟨hm, ⟨e, hc, hG⟩ | ⟨c, hc, ⟨e, hu, hG⟩ | ⟨u1, hu, resp1, s1, h1, ⟨e, hr, hG⟩ |
    ⟨rc, hr, ⟨e, hu2, hG⟩ | ⟨u2, hu2, resp2, s2, h2, ⟨e, hs, hG⟩ | ⟨sc, hs, ⟨e, ha, hG⟩ |
    ⟨cred, ha, resp3, s3, h3, ⟨e, hl, hG⟩ | ⟨hl, hG⟩ |
    ⟨authInfo, hl, resp4, s4, h4, ⟨e, hk, hG⟩ | ⟨secret, hk, hG⟩⟩⟩⟩⟩⟩⟩⟩⟩
  all_goals rw [hG] at h ⊢
  all_goals first
    | exact Outcome.noConfusion h
    | skip
  cases t
  simp only at hfree
  subst hfree
  rfl

/-- Each kind of call occurs once in the handshake, so `n` times in `n` handshakes. -/
theorem count_handshakes (n : Nat) (k : Kind) :
    ((List.replicate n handshake).flatten).count k = n := by
  induction n with
  | zero => simp
  | succ n ih =>
    rw [List.replicate_succ, List.flatten_cons, List.count_append, ih]
    cases k <;> simp [handshake, Nat.add_comm]

/-- The first call of a sequence. -/
theorem GetCalls_cons (c : String × String × String)
    (rest : List (String × String × String)) :
    GetCalls d t s (c :: rest) =
      match (Get d t s c.1 c.2.1 c.2.2).outcome with
      | .blocked =>
        ⟨.blocked, (Get d t s c.1 c.2.1 c.2.2).trace, (Get d t s c.1 c.2.1 c.2.2).world,
          (Get d t s c.1 c.2.1 c.2.2).self⟩
      | .fatal m =>
        ⟨.fatal m, (Get d t s c.1 c.2.1 c.2.2).trace, (Get d t s c.1 c.2.1 c.2.2).world,
          (Get d t s c.1 c.2.1 c.2.2).self⟩
      | .returned v =>
        match (GetCalls d (Get d t s c.1 c.2.1 c.2.2).self
            (Get d t s c.1 c.2.1 c.2.2).world rest).outcome with
        | .blocked =>
          ⟨.blocked,
            (Get d t s c.1 c.2.1 c.2.2).trace ++ (GetCalls d (Get d t s c.1 c.2.1 c.2.2).self
              (Get d t s c.1 c.2.1 c.2.2).world rest).trace,
            (GetCalls d (Get d t s c.1 c.2.1 c.2.2).self
              (Get d t s c.1 c.2.1 c.2.2).world rest).world,
            (GetCalls d (Get d t s c.1 c.2.1 c.2.2).self
              (Get d t s c.1 c.2.1 c.2.2).world rest).self⟩
        | .fatal m =>
          ⟨.fatal m,
            (Get d t s c.1 c.2.1 c.2.2).trace ++ (GetCalls d (Get d t s c.1 c.2.1 c.2.2).self
              (Get d t s c.1 c.2.1 c.2.2).world rest).trace,
            (GetCalls d (Get d t s c.1 c.2.1 c.2.2).self
              (Get d t s c.1 c.2.1 c.2.2).world rest).world,
            (GetCalls d (Get d t s c.1 c.2.1 c.2.2).self
              (Get d t s c.1 c.2.1 c.2.2).world rest).self⟩
        | .returned vs =>
          ⟨.returned (v :: vs),
            (Get d t s c.1 c.2.1 c.2.2).trace ++ (GetCalls d (Get d t s c.1 c.2.1 c.2.2).self
              (Get d t s c.1 c.2.1 c.2.2).world rest).trace,
            (GetCalls d (Get d t s c.1 c.2.1 c.2.2).self
              (Get d t s c.1 c.2.1 c.2.2).world rest).world,
            (GetCalls d (Get d t s c.1 c.2.1 c.2.2).self
              (Get d t s c.1 c.2.1 c.2.2).world rest).self⟩ := by
  obtain ⟨tok, e, n⟩ := c
  rfl

/-- A sequence of calls that all return: as many values as calls, the receiver as it
was, and as many handshakes in the trace as calls. -/
theorem GetCalls_returned (hfree : t.mutex = false)
    (calls : List (String × String × String)) :
    ∀ (s : σ) (vs : List SecretMap), (GetCalls d t s calls).outcome = .returned vs →
      vs.length = calls.length ∧ (GetCalls d t s calls).self = t ∧
      (GetCalls d t s calls).trace.map Event.kind
        = (List.replicate calls.length handshake).flatten := by
  induction calls with
  | nil =>
    intro s vs h
    have hv : vs = [] := (Outcome.returned.inj h).symm
    subst hv
    exact ⟨rfl, rfl, rfl⟩
  | cons c rest ih =>
    intro s vs h
    rw [GetCalls_cons] at h ⊢
    cases hr : (Get d t s c.1 c.2.1 c.2.2).outcome with
    | blocked => rw [hr] at h; exact Outcome.noConfusion h
    | fatal m => rw [hr] at h; exact Outcome.noConfusion h
    | returned v =>
      have hself := Get_self_of_returned d t s c.1 c.2.1 c.2.2 hfree v hr
      have hk := Get_kinds_of_returned d t s c.1 c.2.1 c.2.2 v hr
      rw [hr] at h
      simp only [hself] at h ⊢
      cases hrs : (GetCalls d t (Get d t s c.1 c.2.1 c.2.2).world rest).outcome with
      | blocked => rw [hrs] at h; exact Outcome.noConfusion h
      | fatal m => rw [hrs] at h; exact Outcome.noConfusion h
      | returned vs2 =>
        obtain ⟨hlen, hs2, htr⟩ := ih _ vs2 hrs
        rw [hrs] at h
        have hv : vs = v :: vs2 := (Outcome.returned.inj h).symm
        subst hv
        refine ⟨by simp [hlen], hs2, ?_⟩
        simp only [List.map_append, hk, htr, List.length_cons, List.replicate_succ,
          List.flatten_cons]

/-- One more call after a sequence of calls that all returned is `Get` on the receiver
as it was at first, in the world the sequence left. -/
theorem GetCalls_append_one (hfree : t.mutex = false) (tok e n : String)
    (pre : List (String × String × String)) :
    ∀ (s : σ) (vs : List SecretMap), (GetCalls d t s pre).outcome = .returned vs →
      (GetCalls d t s (pre ++ [(tok, e, n)])).trace
        = (GetCalls d t s pre).trace ++ (Get d t (GetCalls d t s pre).world tok e n).trace ∧
      (GetCalls d t s (pre ++ [(tok, e, n)])).outcome
        = match (Get d t (GetCalls d t s pre).world tok e n).outcome with
          | .returned v => .returned (vs ++ [v])
          | .fatal m => .fatal m
          | .blocked => .blocked := by
  induction pre with
  | nil =>
    intro s vs h
    have hv : vs = [] := (Outcome.returned.inj h).symm
    subst hv
    rw [List.nil_append, GetCalls_cons]
    cases hr : (Get d t s tok e n).outcome <;> simp [GetCalls, hr]
  | cons c rest ih =>
    intro s vs h
    rw [List.cons_append, GetCalls_cons]
    rw [GetCalls_cons] at h ⊢
    cases hr : (Get d t s c.1 c.2.1 c.2.2).outcome with
    | blocked => rw [hr] at h; exact Outcome.noConfusion h
    | fatal m => rw [hr] at h; exact Outcome.noConfusion h
    | returned v =>
      have hself := Get_self_of_returned d t s c.1 c.2.1 c.2.2 hfree v hr
      rw [hr] at h
      simp only [hself] at h ⊢
      cases hrs : (GetCalls d t (Get d t s c.1 c.2.1 c.2.2).world rest).outcome with
      | blocked => rw [hrs] at h; exact Outcome.noConfusion h
      | fatal m => rw [hrs] at h; exact Outcome.noConfusion h
      | returned vs2 =>
        obtain ⟨htr, hout⟩ := ih _ vs2 hrs
        rw [hrs] at h
        have hv : vs = v :: vs2 := (Outcome.returned.inj h).symm
        subst hv
        simp only [htr, hout, List.append_assoc]
        cases (Get d t (GetCalls d t (Get d t s c.1 c.2.1 c.2.2).world rest).world
          tok e n).outcome <;> simp

/-- The AppRole package refuses an empty role id and an empty secret-id string. -/
theorem NewAppRoleAuth_refuses_empty (roleID secretID : String)
    (h : roleID = "" ∨ secretID = "") :
    ∃ e, NewAppRoleAuth roleID { FromFile := "", FromEnv := "", FromString := secretID }
      = .error e := by
  by_cases hr : roleID = ""
  · simp [NewAppRoleAuth, hr]
  · have hs : secretID = "" := h.resolve_left hr
    simp [NewAppRoleAuth, hr, hs, SecretID.validate]

/-- What a run looks like once both fetches have succeeded: the credential is built from
the two ids fetched, and either construction fails and the run stops there, fatally, or
the login is the next network call, made with that credential. -/
theorem Get_after_fetches (rreq sreq : Request) (rc : RoleContainer) (sc : SecretContainer)
    (hin1 : Event.roleIdFetch rreq (.ok rc)
      ∈ (Get d t s token engineName secretName).trace)
    (hin2 : Event.secretIdFetch sreq (.ok sc)
      ∈ (Get d t s token engineName secretName).trace) :
    (∃ e, d.NewAppRoleAuth rc.Data.Id
        { FromFile := "", FromEnv := "", FromString := sc.Data.Id } = .error e ∧
      (Get d t s token engineName secretName).trace
        = [.roleIdFetch rreq (.ok rc), .secretIdFetch sreq (.ok sc)] ∧
      (Get d t s token engineName secretName).outcome
        = .fatal ("Unable to initialize AppRole auth method: " ++ e)) ∨
    (∃ cred resp, d.NewAppRoleAuth rc.Data.Id
        { FromFile := "", FromEnv := "", FromString := sc.Data.Id } = .ok cred ∧
      (Get d t s token engineName secretName).trace.take 3
        = [.roleIdFetch rreq (.ok rc), .secretIdFetch sreq (.ok sc), .login cred resp]) := by
  rcases Get_shape d t s token engineName secretName with
    ⟨hm, hG⟩ | ⟨hm, ⟨e, hc, hG⟩ | ⟨c, hc, ⟨e, hu, hG⟩ | ⟨u1, hu, resp1, s1, h1, ⟨e, hr, hG⟩ |
    ⟨rc0, hr, ⟨e, hu2, hG⟩ | ⟨u2, hu2, resp2, s2, h2, ⟨e, hs, hG⟩ | ⟨sc0, hs, ⟨e, ha, hG⟩ |
    ⟨cred, ha, resp3, s3, h3, ⟨e, hl, hG⟩ | ⟨hl, hG⟩ |
    ⟨authInfo, hl, resp4, s4, h4, ⟨e, hk, hG⟩ | ⟨secret, hk, hG⟩⟩⟩⟩⟩⟩⟩⟩⟩
  all_goals rw [hG] at hin1 hin2 ⊢
  all_goals simp only [List.mem_cons, List.mem_singleton, List.not_mem_nil, or_false,
    false_or, Event.roleIdFetch.injEq, Event.secretIdFetch.injEq, reduceCtorEq,
    false_and, and_false] at hin1 hin2
  all_goals
    obtain ⟨hq1, hrc⟩ := hin1
    obtain ⟨hq2, hsc⟩ := hin2
    subst hq1 hq2 hrc hsc
    simp_all

end Shape

/-! ## The contract of `Get` -/

section Contract

variable {σ κ : Type} (d : Deps σ κ) (t : VaultClientService σ) (s : σ)
  (token engineName secretName : String)

/-- C1: when the lock is free and client construction, the role-id fetch, the secret-id
fetch, credential construction, the login (with a session) and the read all succeed,
`Get` returns, and what it returns is the `Data` mapping of the read response itself. -/
theorem Get_returns_read_data (secret : KVSecret) (hm : t.mutex = false)
    (h : StepsSucceed d t s token engineName secretName secret) :
    (Get d t s token engineName secretName).outcome = .returned secret.Data := by
  obtain ⟨c, u1, rc, s1, u2, sc, s2, cred, authInfo, s3, s4, hc, hu, h1, hu2, h2, ha, h3, h4⟩ := h
  simp [Get, hm, hc, getRoleId_run, hu, h1, getSecretId_run, hu2, h2, ha, h3, h4]

/-- The scenario of the specification: token `tok-1`, engine `kv`, secret `app/db`, role
id `role-abc`, secret id `secret-xyz`, and the read answers username `u`, password `p`;
`Get` returns that mapping. -/
theorem Get_returns_read_data_witness :
    scenarioService.mutex = false ∧
    StepsSucceed scenarioDeps scenarioService 0 "tok-1" "kv" "app/db" scenarioSecret ∧
    (Get scenarioDeps scenarioService 0 "tok-1" "kv" "app/db").outcome
      = .returned (some [("username", .str "u"), ("password", .str "p")]) :=
  have hs : StepsSucceed scenarioDeps scenarioService 0 "tok-1" "kv" "app/db"
      scenarioSecret :=
    ⟨"http://vault:8200", ⟨"http://vault:8200/v1/auth/approle/role/app/role-id"⟩,
      ⟨⟨"role-abc"⟩⟩, 1, ⟨"http://vault:8200/v1/auth/approle/role/app/secret-id"⟩,
      ⟨⟨"secret-xyz"⟩⟩, 2,
      { mountPath := "approle", roleID := "role-abc", secretID := "secret-xyz",
        secretIDFile := "", secretIDEnv := "", unwrap := false },
      ⟨"session-1"⟩, 3, 4, by decide, by decide, rfl, by decide, rfl, by decide, rfl, rfl⟩
  ⟨rfl, hs, Get_returns_read_data scenarioDeps scenarioService 0 "tok-1" "kv" "app/db"
    scenarioSecret rfl hs⟩

/-- C2: the network calls of a `Get` call are an initial part of the sequence role-id
fetch, secret-id fetch, login, read (so none is made before the ones that precede it,
and none is made twice), and a call that returns has made exactly the four, in this
order. -/
theorem Get_trace_in_handshake_order :
    (Get d t s token engineName secretName).trace.map Event.kind <+: handshake ∧
    ∀ v, (Get d t s token engineName secretName).outcome = .returned v →
      (Get d t s token engineName secretName).trace.map Event.kind = handshake := by
  rcases Get_shape d t s token engineName secretName with
    ⟨_, hG⟩ | ⟨_, ⟨_, _, hG⟩ | ⟨_, _, ⟨_, _, hG⟩ | ⟨_, _, _, _, _, ⟨_, _, hG⟩ |
    ⟨_, _, ⟨_, _, hG⟩ | ⟨_, _, _, _, _, ⟨_, _, hG⟩ | ⟨_, _, ⟨_, _, hG⟩ |
    ⟨_, _, _, _, _, ⟨_, _, hG⟩ | ⟨_, hG⟩ | ⟨_, _, _, _, _, ⟨_, _, hG⟩ | ⟨_, _, hG⟩⟩⟩⟩⟩⟩⟩⟩⟩
  all_goals
    rw [hG]
    refine ⟨?_, ?_⟩
    · simp only [List.map, Event.kind, handshake]
      decide
    · simp [Event.kind, handshake]

/-- In the scenario of the specification the call returns and its trace is the four
calls in order. -/
theorem Get_trace_in_handshake_order_witness :
    (Get scenarioDeps scenarioService 0 "tok-1" "kv" "app/db").outcome
      = .returned scenarioSecret.Data ∧
    (Get scenarioDeps scenarioService 0 "tok-1" "kv" "app/db").trace.map Event.kind
      = [.roleIdFetch, .secretIdFetch, .login, .read] :=
  ⟨by decide,
    (Get_trace_in_handshake_order scenarioDeps scenarioService 0 "tok-1" "kv" "app/db").2
      scenarioSecret.Data (by decide)⟩

/-- C3: a `Get` call hands a mapping back only if every step succeeded, and then it is
the data of the secret read; when the lock is free and some step fails (so that the
steps cannot all succeed) the call ends in a fatal termination, with no mapping. -/
theorem Get_fatal_unless_every_step_succeeds :
    (∀ v, (Get d t s token engineName secretName).outcome = .returned v →
      ∃ secret, StepsSucceed d t s token engineName secretName secret ∧ v = secret.Data) ∧
    (t.mutex = false → (¬ ∃ secret, StepsSucceed d t s token engineName secretName secret) →
      ∃ msg, (Get d t s token engineName secretName).outcome = .fatal msg) := by
  have hshape := Get_shape d t s token engineName secretName
  refine ⟨fun v hv => ?_, fun hfree hn => ?_⟩
  · rcases hshape with
      ⟨hm, hG⟩ | ⟨hm, ⟨e, hc, hG⟩ | ⟨c, hc, ⟨e, hu, hG⟩ | ⟨u1, hu, resp1, s1, h1, ⟨e, hr, hG⟩ |
      ⟨rc, hr, ⟨e, hu2, hG⟩ | ⟨u2, hu2, resp2, s2, h2, ⟨e, hs, hG⟩ | ⟨sc, hs, ⟨e, ha, hG⟩ |
      ⟨cred, ha, resp3, s3, h3, ⟨e, hl, hG⟩ | ⟨hl, hG⟩ |
      ⟨authInfo, hl, resp4, s4, h4, ⟨e, hk, hG⟩ | ⟨secret, hk, hG⟩⟩⟩⟩⟩⟩⟩⟩⟩
    all_goals rw [hG] at hv
    all_goals first
      | exact Outcome.noConfusion hv
      | skip
    subst hr hs hl hk
    refine ⟨secret, ⟨c, u1, rc, s1, u2, sc, s2, cred, authInfo, s3, s4, hc, hu, h1, hu2, h2,
      ha, h3, h4⟩, ?_⟩
    exact (Outcome.returned.inj hv).symm
  · rcases hshape with
      ⟨hm, hG⟩ | ⟨hm, ⟨e, hc, hG⟩ | ⟨c, hc, ⟨e, hu, hG⟩ | ⟨u1, hu, resp1, s1, h1, ⟨e, hr, hG⟩ |
      ⟨rc, hr, ⟨e, hu2, hG⟩ | ⟨u2, hu2, resp2, s2, h2, ⟨e, hs, hG⟩ | ⟨sc, hs, ⟨e, ha, hG⟩ |
      ⟨cred, ha, resp3, s3, h3, ⟨e, hl, hG⟩ | ⟨hl, hG⟩ |
      ⟨authInfo, hl, resp4, s4, h4, ⟨e, hk, hG⟩ | ⟨secret, hk, hG⟩⟩⟩⟩⟩⟩⟩⟩⟩
    all_goals rw [hG]
    all_goals first
      | exact ⟨_, rfl⟩
      | skip
    · rw [hfree] at hm
      exact Bool.noConfusion hm
    · subst hr hs hl hk
      exact absurd ⟨secret, c, u1, rc, s1, u2, sc, s2, cred, authInfo, s3, s4, hc, hu, h1,
        hu2, h2, ha, h3, h4⟩ hn

/-- With a read that fails, the steps cannot all succeed and the call is fatal; in the
scenario of the specification the call returns and every step succeeded. -/
theorem Get_fatal_unless_every_step_succeeds_witness :
    scenarioService.mutex = false ∧
    (¬ ∃ secret, StepsSucceed (fixedDeps (.ok (some ⟨"session-1"⟩)) (.error "secret not found"))
      scenarioService 0 "tok-1" "kv" "app/db" secret) ∧
    (∃ msg, (Get (fixedDeps (.ok (some ⟨"session-1"⟩)) (.error "secret not found"))
      scenarioService 0 "tok-1" "kv" "app/db").outcome = .fatal msg) ∧
    (∃ secret, StepsSucceed scenarioDeps scenarioService 0 "tok-1" "kv" "app/db" secret ∧
      scenarioSecret.Data = secret.Data) :=
  have hn : ¬ ∃ secret, StepsSucceed
      (fixedDeps (.ok (some ⟨"session-1"⟩)) (.error "secret not found"))
      scenarioService 0 "tok-1" "kv" "app/db" secret :=
    fun ⟨_, _, _, _, _, _, _, _, _, _, _, _, _, _, _, _, _, _, _, h4⟩ => by
      simp [fixedDeps] at h4
  ⟨rfl, hn,
    (Get_fatal_unless_every_step_succeeds
      (fixedDeps (.ok (some ⟨"session-1"⟩)) (.error "secret not found"))
      scenarioService 0 "tok-1" "kv" "app/db").2 rfl hn,
    (Get_fatal_unless_every_step_succeeds scenarioDeps scenarioService 0 "tok-1" "kv"
      "app/db").1 scenarioSecret.Data (by decide)⟩

/-- C4: in a `Get` call whose role-id fetch answers with an error, that fetch is the
only network call made and the call is fatal; in a call whose secret-id fetch answers
with an error, the trace is the (successful) role-id fetch followed by that fetch, and
the call is fatal.  No secret-id fetch, login or read follows the first, no login or
read the second. -/
theorem Get_stops_at_failed_fetch :
    (∀ req err, Event.roleIdFetch req (.error err)
        ∈ (Get d t s token engineName secretName).trace →
      (Get d t s token engineName secretName).trace = [.roleIdFetch req (.error err)] ∧
      (Get d t s token engineName secretName).outcome
        = .fatal ("Vault exception: " ++ err)) ∧
    (∀ req err, Event.secretIdFetch req (.error err)
        ∈ (Get d t s token engineName secretName).trace →
      (∃ rreq rc, (Get d t s token engineName secretName).trace
        = [.roleIdFetch rreq (.ok rc), .secretIdFetch req (.error err)]) ∧
      (Get d t s token engineName secretName).outcome
        = .fatal ("Vault exception: " ++ err)) := by
  rcases Get_shape d t s token engineName secretName with
    ⟨hm, hG⟩ | ⟨hm, ⟨e, hc, hG⟩ | ⟨c, hc, ⟨e, hu, hG⟩ | ⟨u1, hu, resp1, s1, h1, ⟨e, hr, hG⟩ |
    ⟨rc, hr, ⟨e, hu2, hG⟩ | ⟨u2, hu2, resp2, s2, h2, ⟨e, hs, hG⟩ | ⟨sc, hs, ⟨e, ha, hG⟩ |
    ⟨cred, ha, resp3, s3, h3, ⟨e, hl, hG⟩ | ⟨hl, hG⟩ |
    ⟨authInfo, hl, resp4, s4, h4, ⟨e, hk, hG⟩ | ⟨secret, hk, hG⟩⟩⟩⟩⟩⟩⟩⟩⟩
  all_goals
    rw [hG]
    refine ⟨fun req err hin => ?_, fun req err hin => ?_⟩
  all_goals simp_all

/-- A role-id endpoint that refuses the connection: one network call, fatal.  A
secret-id endpoint that refuses it: two network calls, fatal. -/
theorem Get_stops_at_failed_fetch_witness :
    (Event.roleIdFetch (roleIdRequest ⟨roleIdUrl scenarioOptions⟩ "tok-1") (.error "connection refused")
        ∈ (Get scenarioDeps
            (fixedService scenarioOptions (.error "connection refused") (.ok ⟨⟨"secret-xyz"⟩⟩))
            0 "tok-1" "kv" "app/db").trace ∧
      (Get scenarioDeps
          (fixedService scenarioOptions (.error "connection refused") (.ok ⟨⟨"secret-xyz"⟩⟩))
          0 "tok-1" "kv" "app/db").trace
        = [.roleIdFetch (roleIdRequest ⟨roleIdUrl scenarioOptions⟩ "tok-1") (.error "connection refused")]) ∧
    (Event.secretIdFetch (secretIdRequest ⟨secretIdUrl scenarioOptions⟩ "tok-1") (.error "connection refused")
        ∈ (Get scenarioDeps
            (fixedService scenarioOptions (.ok ⟨⟨"role-abc"⟩⟩) (.error "connection refused"))
            0 "tok-1" "kv" "app/db").trace ∧
      (Get scenarioDeps
          (fixedService scenarioOptions (.ok ⟨⟨"role-abc"⟩⟩) (.error "connection refused"))
          0 "tok-1" "kv" "app/db").outcome
        = .fatal ("Vault exception: " ++ "connection refused")) :=
  ⟨⟨by decide,
      ((Get_stops_at_failed_fetch scenarioDeps
        (fixedService scenarioOptions (.error "connection refused") (.ok ⟨⟨"secret-xyz"⟩⟩))
        0 "tok-1" "kv" "app/db").1
        (roleIdRequest ⟨roleIdUrl scenarioOptions⟩ "tok-1") "connection refused" (by decide)).1⟩,
    ⟨by decide,
      ((Get_stops_at_failed_fetch scenarioDeps
        (fixedService scenarioOptions (.ok ⟨⟨"role-abc"⟩⟩) (.error "connection refused"))
        0 "tok-1" "kv" "app/db").2
        (secretIdRequest ⟨secretIdUrl scenarioOptions⟩ "tok-1") "connection refused" (by decide)).2⟩⟩

/-- C5: in a `Get` call whose login answers with no session and no error, the call is
fatal and the login is its last network call: the trace is the two fetches and the
login, and holds no read. -/
theorem Get_nil_session_is_fatal (cred : AppRoleAuth)
    (h : Event.login cred (.ok none) ∈ (Get d t s token engineName secretName).trace) :
    (Get d t s token engineName secretName).outcome
      = .fatal "No auth info was returned after login" ∧
    (Get d t s token engineName secretName).trace.map Event.kind
      = [.roleIdFetch, .secretIdFetch, .login] ∧
    ∀ ev ∈ (Get d t s token engineName secretName).trace, ev.kind ≠ .read := by
  rcases Get_shape d t s token engineName secretName with
    ⟨hm, hG⟩ | ⟨hm, ⟨e, hc, hG⟩ | ⟨c, hc, ⟨e, hu, hG⟩ | ⟨u1, hu, resp1, s1, h1, ⟨e, hr, hG⟩ |
    ⟨rc, hr, ⟨e, hu2, hG⟩ | ⟨u2, hu2, resp2, s2, h2, ⟨e, hs, hG⟩ | ⟨sc, hs, ⟨e, ha, hG⟩ |
    ⟨cred, ha, resp3, s3, h3, ⟨e, hl, hG⟩ | ⟨hl, hG⟩ |
    ⟨authInfo, hl, resp4, s4, h4, ⟨e, hk, hG⟩ | ⟨secret, hk, hG⟩⟩⟩⟩⟩⟩⟩⟩⟩
  all_goals
    rw [hG] at h ⊢
  all_goals simp_all [Event.kind]

/-- A login service that answers with neither session nor error: the call is fatal and
no read is made. -/
theorem Get_nil_session_is_fatal_witness :
    (Event.login
        { mountPath := "approle", roleID := "role-abc", secretID := "secret-xyz",
          secretIDFile := "", secretIDEnv := "", unwrap := false } (.ok none)
      ∈ (Get (fixedDeps (.ok none) (.ok scenarioSecret)) scenarioService 0 "tok-1" "kv"
          "app/db").trace) ∧
    (Get (fixedDeps (.ok none) (.ok scenarioSecret)) scenarioService 0 "tok-1" "kv"
        "app/db").outcome = .fatal "No auth info was returned after login" ∧
    ∀ ev ∈ (Get (fixedDeps (.ok none) (.ok scenarioSecret)) scenarioService 0 "tok-1" "kv"
        "app/db").trace, ev.kind ≠ .read :=
  have h := Get_nil_session_is_fatal (fixedDeps (.ok none) (.ok scenarioSecret))
    scenarioService 0 "tok-1" "kv" "app/db"
    { mountPath := "approle", roleID := "role-abc", secretID := "secret-xyz",
      secretIDFile := "", secretIDEnv := "", unwrap := false } (by decide)
  ⟨by decide, h.1, h.2.2⟩

/-! ## The two control-API steps -/

/-- C6, as the claim states it, fails in two ways.  With the role name `app` followed
by a tab, client construction succeeds but `http.NewRequest` refuses the role-id URL:
the call is fatal and no request is sent.  With the role name `my role` one request is
sent, but its URL is the parsed one, whose string form has `%20` for the space: it is
not the string `endpoint ++ "/v1/auth/approle/role/" ++ roleName ++ "/role-id"`. -/
theorem getRoleId_request_not_as_claimed :
    (scenarioDeps.NewClient 0 "http://vault:8200" = .ok "http://vault:8200" ∧
      (Get scenarioDeps
          (fixedService ⟨"http://vault:8200", "app\t"⟩ (.ok ⟨⟨"role-abc"⟩⟩) (.ok ⟨⟨"secret-xyz"⟩⟩))
          0 "tok-1" "kv" "app/db").trace = [] ∧
      (getRoleId scenarioDeps
          (fixedService ⟨"http://vault:8200", "app\t"⟩ (.ok ⟨⟨"role-abc"⟩⟩) (.ok ⟨⟨"secret-xyz"⟩⟩))
          0 "tok-1").trace = [] ∧
      ∃ msg, (getRoleId scenarioDeps
          (fixedService ⟨"http://vault:8200", "app\t"⟩ (.ok ⟨⟨"role-abc"⟩⟩) (.ok ⟨⟨"secret-xyz"⟩⟩))
          0 "tok-1").outcome = .fatal msg) ∧
    ((getRoleId scenarioDeps
          (fixedService ⟨"http://vault:8200", "my role"⟩ (.ok ⟨⟨"role-abc"⟩⟩)
            (.ok ⟨⟨"secret-xyz"⟩⟩))
          0 "tok-1").trace
        = [.roleIdFetch
            { Method := "GET"
              URL := ⟨"http://vault:8200/v1/auth/approle/role/my%20role/role-id"⟩
              Header := [("X-Vault-Token", "tok-1")] }
            (.ok ⟨⟨"role-abc"⟩⟩)] ∧
      (Get scenarioDeps
          (fixedService ⟨"http://vault:8200", "my role"⟩ (.ok ⟨⟨"role-abc"⟩⟩)
            (.ok ⟨⟨"secret-xyz"⟩⟩))
          0 "tok-1" "kv" "app/db").trace.head?
        = some (.roleIdFetch
            { Method := "GET"
              URL := ⟨"http://vault:8200/v1/auth/approle/role/my%20role/role-id"⟩
              Header := [("X-Vault-Token", "tok-1")] }
            (.ok ⟨⟨"role-abc"⟩⟩)) ∧
      "http://vault:8200/v1/auth/approle/role/my%20role/role-id"
        ≠ "http://vault:8200" ++ "/v1/auth/approle/role/" ++ "my role" ++ "/role-id") :=
  ⟨⟨by decide, by decide, by decide, ⟨_, rfl⟩⟩, ⟨by decide, by decide, by decide⟩⟩

/-- C6, amended: when `http.NewRequest` accepts the string `endpoint ++
"/v1/auth/approle/role/" ++ roleName ++ "/role-id"`, the role-id step sends exactly one
request: method `GET`, as URL the URL `http.NewRequest` parsed from that string, and
the single header `X-Vault-Token` with the caller token; the response recorded is the
one the HTTP client gave, and on success the step yields the `Data.Id` of the response
body, unchanged.  When `http.NewRequest` refuses the string the step sends no request
and is fatal.  In a `Get` call, a role-id request in the trace is that request, and it
is the only one. -/
theorem getRoleId_sends_one_get_request :
    (∀ u, d.urlParse (t.options.Endpoint ++ "/v1/auth/approle/role/" ++ t.options.RoleName
        ++ "/role-id") = .ok u →
      (getRoleId d t s token).trace =
        [.roleIdFetch
          { Method := "GET", URL := u, Header := [("X-Vault-Token", token)] }
          (t.roleContainerHttpClient s
            { Method := "GET", URL := u, Header := [("X-Vault-Token", token)] }).1] ∧
      ∀ rc, (t.roleContainerHttpClient s
            { Method := "GET", URL := u, Header := [("X-Vault-Token", token)] }).1 = .ok rc →
        (getRoleId d t s token).outcome = .returned rc.Data.Id) ∧
    (∀ e, d.urlParse (t.options.Endpoint ++ "/v1/auth/approle/role/" ++ t.options.RoleName
        ++ "/role-id") = .error e →
      (getRoleId d t s token).trace = [] ∧
      (getRoleId d t s token).outcome = .fatal ("Vault exception: " ++ e)) ∧
    (∀ req resp,
      Event.roleIdFetch req resp ∈ (Get d t s token engineName secretName).trace →
      ∃ u, d.urlParse (t.options.Endpoint ++ "/v1/auth/approle/role/" ++ t.options.RoleName
          ++ "/role-id") = .ok u ∧
        req = { Method := "GET", URL := u, Header := [("X-Vault-Token", token)] } ∧
        ((Get d t s token engineName secretName).trace.map Event.kind).count .roleIdFetch
          = 1) := by
  refine ⟨fun u hu => ?_, fun e hu => ?_, fun req resp hin => ?_⟩
  · have hu2 : d.urlParse (roleIdUrl t.options) = .ok u := hu
    rw [getRoleId_run, hu2]
    simp only [roleIdRequest]
    rcases t.roleContainerHttpClient s
        { Method := "GET", URL := u, Header := [("X-Vault-Token", token)] } with ⟨resp, s1⟩
    cases resp <;> simp
  · have hu2 : d.urlParse (roleIdUrl t.options) = .error e := hu
    rw [getRoleId_run, hu2]
    exact ⟨rfl, rfl⟩
  · rcases Get_shape d t s token engineName secretName with
      ⟨hm, hG⟩ | ⟨hm, ⟨e, hc, hG⟩ | ⟨c, hc, ⟨e, hu, hG⟩ | ⟨u1, hu, resp1, s1, h1, ⟨e, hr, hG⟩ |
      ⟨rc, hr, ⟨e, hu2, hG⟩ | ⟨u2, hu2, resp2, s2, h2, ⟨e, hs, hG⟩ | ⟨sc, hs, ⟨e, ha, hG⟩ |
      ⟨cred, ha, resp3, s3, h3, ⟨e, hl, hG⟩ | ⟨hl, hG⟩ |
      ⟨authInfo, hl, resp4, s4, h4, ⟨e, hk, hG⟩ | ⟨secret, hk, hG⟩⟩⟩⟩⟩⟩⟩⟩⟩
    all_goals rw [hG] at hin ⊢
    all_goals simp only [List.mem_cons, List.mem_singleton, List.not_mem_nil, or_false,
      false_or, Event.roleIdFetch.injEq, reduceCtorEq] at hin
    all_goals
      obtain ⟨hreq, _⟩ := hin
      subst hreq
      exact ⟨u1, hu, rfl, by simp [Event.kind]⟩

/-- In the scenario of the specification the role-id step sends one `GET` request to
`http://vault:8200/v1/auth/approle/role/app/role-id` with the token `tok-1`, and yields
`role-abc`. -/
theorem getRoleId_sends_one_get_request_witness :
    scenarioDeps.urlParse (scenarioOptions.Endpoint ++ "/v1/auth/approle/role/"
      ++ scenarioOptions.RoleName ++ "/role-id")
      = .ok ⟨"http://vault:8200/v1/auth/approle/role/app/role-id"⟩ ∧
    (getRoleId scenarioDeps scenarioService 0 "tok-1").trace =
      [.roleIdFetch
        { Method := "GET"
          URL := ⟨"http://vault:8200/v1/auth/approle/role/app/role-id"⟩
          Header := [("X-Vault-Token", "tok-1")] }
        (.ok ⟨⟨"role-abc"⟩⟩)] ∧
    (getRoleId scenarioDeps scenarioService 0 "tok-1").outcome = .returned "role-abc" :=
  have h := (getRoleId_sends_one_get_request scenarioDeps scenarioService 0 "tok-1" "kv"
    "app/db").1 ⟨"http://vault:8200/v1/auth/approle/role/app/role-id"⟩ (by decide)
  ⟨by decide, h.1, h.2 ⟨⟨"role-abc"⟩⟩ rfl⟩

/-- C7, as the claim states it, fails: with the role name `my role` a `Get` call passes
the role-id step and sends one secret-id request, but the URL of that request is the
parsed one, whose string form has `%20` for the space: it is not the string `endpoint ++
"/v1/auth/approle/role/" ++ roleName ++ "/secret-id"`. -/
theorem getSecretId_request_not_as_claimed :
    (Get scenarioDeps
        (fixedService ⟨"http://vault:8200", "my role"⟩ (.ok ⟨⟨"role-abc"⟩⟩)
          (.ok ⟨⟨"secret-xyz"⟩⟩))
        0 "tok-1" "kv" "app/db").trace.take 2
      = [.roleIdFetch
          { Method := "GET"
            URL := ⟨"http://vault:8200/v1/auth/approle/role/my%20role/role-id"⟩
            Header := [("X-Vault-Token", "tok-1")] }
          (.ok ⟨⟨"role-abc"⟩⟩),
        .secretIdFetch
          { Method := "POST"
            URL := ⟨"http://vault:8200/v1/auth/approle/role/my%20role/secret-id"⟩
            Header := [("X-Vault-Token", "tok-1")] }
          (.ok ⟨⟨"secret-xyz"⟩⟩)] ∧
    ((Get scenarioDeps
        (fixedService ⟨"http://vault:8200", "my role"⟩ (.ok ⟨⟨"role-abc"⟩⟩)
          (.ok ⟨⟨"secret-xyz"⟩⟩))
        0 "tok-1" "kv" "app/db").trace.map Event.kind).count .secretIdFetch = 1 ∧
    Event.secretIdFetch
        { Method := "POST"
          URL := ⟨"http://vault:8200" ++ "/v1/auth/approle/role/" ++ "my role" ++ "/secret-id"⟩
          Header := [("X-Vault-Token", "tok-1")] }
        (.ok ⟨⟨"secret-xyz"⟩⟩)
      ∉ (Get scenarioDeps
          (fixedService ⟨"http://vault:8200", "my role"⟩ (.ok ⟨⟨"role-abc"⟩⟩)
            (.ok ⟨⟨"secret-xyz"⟩⟩))
          0 "tok-1" "kv" "app/db").trace ∧
    "http://vault:8200/v1/auth/approle/role/my%20role/secret-id"
      ≠ "http://vault:8200" ++ "/v1/auth/approle/role/" ++ "my role" ++ "/secret-id" :=
  ⟨by decide, by decide, by decide, by decide⟩

/-- C7, amended: when `http.NewRequest` accepts the string `endpoint ++
"/v1/auth/approle/role/" ++ roleName ++ "/secret-id"`, the secret-id step sends exactly
one request: method `POST`, as URL the URL `http.NewRequest` parsed from that string,
and the single header `X-Vault-Token` with the caller token; on success the step yields
a secret id whose `FromString` is the `Data.Id` of the response body and whose `FromFile`
and `FromEnv` are empty.  In a `Get` call the secret-id request carries the same header,
so the same token, as the role-id request of the call, and it is the only secret-id
request; and if the URL parser accepts the secret-id string whenever it accepts the
role-id string, every call whose role-id fetch succeeded sends it, right after that
fetch. -/
theorem getSecretId_sends_one_post_request :
    (∀ u, d.urlParse (t.options.Endpoint ++ "/v1/auth/approle/role/" ++ t.options.RoleName
        ++ "/secret-id") = .ok u →
      (getSecretId d t s token).trace =
        [.secretIdFetch
          { Method := "POST", URL := u, Header := [("X-Vault-Token", token)] }
          (t.secretContainerHttpClient s
            { Method := "POST", URL := u, Header := [("X-Vault-Token", token)] }).1] ∧
      ∀ sc, (t.secretContainerHttpClient s
            { Method := "POST", URL := u, Header := [("X-Vault-Token", token)] }).1 = .ok sc →
        (getSecretId d t s token).outcome
          = .returned { FromFile := "", FromEnv := "", FromString := sc.Data.Id }) ∧
    (∀ rreq rresp sreq sresp,
      Event.roleIdFetch rreq rresp ∈ (Get d t s token engineName secretName).trace →
      Event.secretIdFetch sreq sresp ∈ (Get d t s token engineName secretName).trace →
      ∃ u1 u2,
        d.urlParse (t.options.Endpoint ++ "/v1/auth/approle/role/" ++ t.options.RoleName
          ++ "/role-id") = .ok u1 ∧
        d.urlParse (t.options.Endpoint ++ "/v1/auth/approle/role/" ++ t.options.RoleName
          ++ "/secret-id") = .ok u2 ∧
        rreq = { Method := "GET", URL := u1, Header := [("X-Vault-Token", token)] } ∧
        sreq = { Method := "POST", URL := u2, Header := [("X-Vault-Token", token)] } ∧
        sreq.Header = rreq.Header ∧
        ((Get d t s token engineName secretName).trace.map Event.kind).count .secretIdFetch
          = 1) ∧
    ((∀ u1, d.urlParse (t.options.Endpoint ++ "/v1/auth/approle/role/" ++ t.options.RoleName
          ++ "/role-id") = .ok u1 →
        ∃ u2, d.urlParse (t.options.Endpoint ++ "/v1/auth/approle/role/"
          ++ t.options.RoleName ++ "/secret-id") = .ok u2) →
      ∀ rreq rc,
        Event.roleIdFetch rreq (.ok rc) ∈ (Get d t s token engineName secretName).trace →
        ∃ u2 sresp,
          d.urlParse (t.options.Endpoint ++ "/v1/auth/approle/role/" ++ t.options.RoleName
            ++ "/secret-id") = .ok u2 ∧
          (Get d t s token engineName secretName).trace.take 2
            = [.roleIdFetch rreq (.ok rc),
                .secretIdFetch
                  { Method := "POST", URL := u2, Header := [("X-Vault-Token", token)] }
                  sresp] ∧
          ((Get d t s token engineName secretName).trace.map Event.kind).count
            .secretIdFetch = 1) := by
  refine ⟨fun u hu => ?_, fun rreq rresp sreq sresp hin1 hin2 => ?_,
    fun hacc rreq rc0 hin => ?_⟩
  · have hu2 : d.urlParse (secretIdUrl t.options) = .ok u := hu
    rw [getSecretId_run, hu2]
    simp only [secretIdRequest]
    rcases t.secretContainerHttpClient s
        { Method := "POST", URL := u, Header := [("X-Vault-Token", token)] } with ⟨resp, s1⟩
    cases resp <;> simp
  · rcases Get_shape d t s token engineName secretName with
      ⟨hm, hG⟩ | ⟨hm, ⟨e, hc, hG⟩ | ⟨c, hc, ⟨e, hu, hG⟩ | ⟨u1, hu, resp1, s1, h1, ⟨e, hr, hG⟩ |
      ⟨rc, hr, ⟨e, hu2, hG⟩ | ⟨u2, hu2, resp2, s2, h2, ⟨e, hs, hG⟩ | ⟨sc, hs, ⟨e, ha, hG⟩ |
      ⟨cred, ha, resp3, s3, h3, ⟨e, hl, hG⟩ | ⟨hl, hG⟩ |
      ⟨authInfo, hl, resp4, s4, h4, ⟨e, hk, hG⟩ | ⟨secret, hk, hG⟩⟩⟩⟩⟩⟩⟩⟩⟩
    all_goals rw [hG] at hin1 hin2 ⊢
    all_goals simp only [List.mem_cons, List.mem_singleton, List.not_mem_nil, or_false,
      false_or, Event.roleIdFetch.injEq, Event.secretIdFetch.injEq, reduceCtorEq] at hin1 hin2
    all_goals
      obtain ⟨hq1, _⟩ := hin1
      obtain ⟨hq2, _⟩ := hin2
      subst hq1 hq2
      exact ⟨u1, u2, hu, hu2, rfl, rfl, rfl, by simp [Event.kind]⟩
  · rcases Get_shape d t s token engineName secretName with
      ⟨hm, hG⟩ | ⟨hm, ⟨e, hc, hG⟩ | ⟨c, hc, ⟨e, hu, hG⟩ | ⟨u1, hu, resp1, s1, h1, ⟨e, hr, hG⟩ |
      ⟨rc, hr, ⟨e, hu2, hG⟩ | ⟨u2, hu2, resp2, s2, h2, ⟨e, hs, hG⟩ | ⟨sc, hs, ⟨e, ha, hG⟩ |
      ⟨cred, ha, resp3, s3, h3, ⟨e, hl, hG⟩ | ⟨hl, hG⟩ |
      ⟨authInfo, hl, resp4, s4, h4, ⟨e, hk, hG⟩ | ⟨secret, hk, hG⟩⟩⟩⟩⟩⟩⟩⟩⟩
    all_goals try subst hr
    all_goals rw [hG] at hin ⊢
    all_goals simp only [List.mem_cons, List.mem_singleton, List.not_mem_nil, or_false,
      false_or, Event.roleIdFetch.injEq, reduceCtorEq, Except.ok.injEq, and_false] at hin
    · obtain ⟨u2, hu2b⟩ := hacc u1 hu
      have hu2c : d.urlParse (secretIdUrl t.options) = .ok u2 := hu2b
      rw [hu2] at hu2c
      exact Except.noConfusion hu2c
    all_goals
      obtain ⟨hq, hrc⟩ := hin
      subst hq hrc
      exact ⟨u2, _, hu2, rfl, by simp [Event.kind]⟩

/-- In the scenario of the specification the secret-id step sends one `POST` request to
`http://vault:8200/v1/auth/approle/role/app/secret-id` with the token `tok-1`, and
yields the secret id `secret-xyz` given as a string; in the `Get` call of the scenario
the parser accepts both strings and the request follows the role-id fetch. -/
theorem getSecretId_sends_one_post_request_witness :
    scenarioDeps.urlParse (scenarioOptions.Endpoint ++ "/v1/auth/approle/role/"
      ++ scenarioOptions.RoleName ++ "/secret-id")
      = .ok ⟨"http://vault:8200/v1/auth/approle/role/app/secret-id"⟩ ∧
    (getSecretId scenarioDeps scenarioService 1 "tok-1").trace =
      [.secretIdFetch
        { Method := "POST"
          URL := ⟨"http://vault:8200/v1/auth/approle/role/app/secret-id"⟩
          Header := [("X-Vault-Token", "tok-1")] }
        (.ok ⟨⟨"secret-xyz"⟩⟩)] ∧
    (getSecretId scenarioDeps scenarioService 1 "tok-1").outcome
      = .returned { FromFile := "", FromEnv := "", FromString := "secret-xyz" } ∧
    (Event.roleIdFetch (roleIdRequest ⟨roleIdUrl scenarioOptions⟩ "tok-1") (.ok ⟨⟨"role-abc"⟩⟩)
      ∈ (Get scenarioDeps scenarioService 0 "tok-1" "kv" "app/db").trace) ∧
    ((Get scenarioDeps scenarioService 0 "tok-1" "kv" "app/db").trace.map Event.kind).count
      .secretIdFetch = 1 :=
  have h := getSecretId_sends_one_post_request scenarioDeps scenarioService 1 "tok-1" "kv"
    "app/db"
  have h0 := getSecretId_sends_one_post_request scenarioDeps scenarioService 0 "tok-1" "kv"
    "app/db"
  have h1 := h.1 ⟨"http://vault:8200/v1/auth/approle/role/app/secret-id"⟩ (by decide)
  have hin : Event.roleIdFetch (roleIdRequest ⟨roleIdUrl scenarioOptions⟩ "tok-1")
      (.ok ⟨⟨"role-abc"⟩⟩)
      ∈ (Get scenarioDeps scenarioService 0 "tok-1" "kv" "app/db").trace := by decide
  ⟨by decide, h1.1, h1.2 ⟨⟨"secret-xyz"⟩⟩ rfl, hin,
    (h0.2.2 (fun _ _ => ⟨⟨"http://vault:8200/v1/auth/approle/role/app/secret-id"⟩,
        by decide⟩) _ _ hin).elim fun _ h2 =>
      h2.elim fun _ h3 => h3.2.2⟩

/-! ## No state across calls -/

/-- C8: `Get` keeps nothing from one call to the next.  A call that reaches the login
has itself made one role-id fetch and one secret-id mint, and logs in with the
credential built from their two answers; a call leaves the options and the HTTP clients
of the instance as they were, and an instance that returns is as it was; `n` calls in a
row that all return make `n` handshakes, so `n` calls of each kind; and one more call
after them is `Get` on the instance as first built, in the world as it then is: its
trace and its result are those of that single call. -/
theorem Get_keeps_no_credentials :
    (∀ cred resp, Event.login cred resp ∈ (Get d t s token engineName secretName).trace →
      ∃ u1 u2 rc sc,
        d.urlParse (roleIdUrl t.options) = .ok u1 ∧
        d.urlParse (secretIdUrl t.options) = .ok u2 ∧
        (Get d t s token engineName secretName).trace.take 3
          = [.roleIdFetch (roleIdRequest u1 token) (.ok rc),
              .secretIdFetch (secretIdRequest u2 token) (.ok sc),
              .login cred resp] ∧
        d.NewAppRoleAuth rc.Data.Id { FromFile := "", FromEnv := "", FromString := sc.Data.Id }
          = .ok cred ∧
        ((Get d t s token engineName secretName).trace.map Event.kind).count .roleIdFetch = 1 ∧
        ((Get d t s token engineName secretName).trace.map Event.kind).count .secretIdFetch
          = 1) ∧
    ((Get d t s token engineName secretName).self.options = t.options ∧
      (Get d t s token engineName secretName).self.roleContainerHttpClient
        = t.roleContainerHttpClient ∧
      (Get d t s token engineName secretName).self.secretContainerHttpClient
        = t.secretContainerHttpClient) ∧
    (t.mutex = false → ∀ v, (Get d t s token engineName secretName).outcome = .returned v →
      (Get d t s token engineName secretName).self = t) ∧
    (t.mutex = false → ∀ calls vs, (GetCalls d t s calls).outcome = .returned vs →
      vs.length = calls.length ∧ (GetCalls d t s calls).self = t ∧
      (GetCalls d t s calls).trace.map Event.kind
        = (List.replicate calls.length handshake).flatten ∧
      ∀ k, ((GetCalls d t s calls).trace.map Event.kind).count k = calls.length) ∧
    (t.mutex = false → ∀ pre vs tok e n, (GetCalls d t s pre).outcome = .returned vs →
      (GetCalls d t s (pre ++ [(tok, e, n)])).trace
        = (GetCalls d t s pre).trace ++ (Get d t (GetCalls d t s pre).world tok e n).trace ∧
      (GetCalls d t s (pre ++ [(tok, e, n)])).outcome
        = match (Get d t (GetCalls d t s pre).world tok e n).outcome with
          | .returned v => .returned (vs ++ [v])
          | .fatal m => .fatal m
          | .blocked => .blocked) := by
  refine ⟨?_, Get_self_fields d t s token engineName secretName,
    fun hfree v h => Get_self_of_returned d t s token engineName secretName hfree v h,
    fun hfree calls vs h => ?_,
    fun hfree pre vs tok e n h => GetCalls_append_one d t hfree tok e n pre s vs h⟩
  · intro cred0 resp0 hin
    rcases Get_shape d t s token engineName secretName with
      ⟨hm, hG⟩ | ⟨hm, ⟨e, hc, hG⟩ | ⟨c, hc, ⟨e, hu, hG⟩ | ⟨u1, hu, resp1, s1, h1, ⟨e, hr, hG⟩ |
      ⟨rc, hr, ⟨e, hu2, hG⟩ | ⟨u2, hu2, resp2, s2, h2, ⟨e, hs, hG⟩ | ⟨sc, hs, ⟨e, ha, hG⟩ |
      ⟨cred, ha, resp3, s3, h3, ⟨e, hl, hG⟩ | ⟨hl, hG⟩ |
      ⟨authInfo, hl, resp4, s4, h4, ⟨e, hk, hG⟩ | ⟨secret, hk, hG⟩⟩⟩⟩⟩⟩⟩⟩⟩
    all_goals rw [hG] at hin ⊢
    all_goals simp only [List.mem_cons, List.mem_singleton, List.not_mem_nil, or_false,
      false_or, Event.login.injEq, reduceCtorEq] at hin
    all_goals
      obtain ⟨hcred, hresp⟩ := hin
      subst hcred hresp hr hs
      exact ⟨u1, u2, rc, sc, hu, hu2, rfl, ha, by simp [Event.kind], by simp [Event.kind]⟩
  · obtain ⟨hlen, hself, htr⟩ := GetCalls_returned d t hfree calls s vs h
    exact ⟨hlen, hself, htr, fun k => by rw [htr]; exact count_handshakes _ k⟩

/-- Two calls in a row in the scenario of the specification, with two tokens: both
return the secret, and the trace holds two calls of each kind; the second call reaches
the login after its own two fetches. -/
theorem Get_keeps_no_credentials_witness :
    scenarioService.mutex = false ∧
    (GetCalls scenarioDeps scenarioService 0
        [("tok-1", "kv", "app/db"), ("tok-2", "kv", "app/db")]).outcome
      = .returned [scenarioSecret.Data, scenarioSecret.Data] ∧
    (∀ k, ((GetCalls scenarioDeps scenarioService 0
        [("tok-1", "kv", "app/db"), ("tok-2", "kv", "app/db")]).trace.map Event.kind).count k
      = 2) ∧
    (Event.login
        { mountPath := "approle", roleID := "role-abc", secretID := "secret-xyz",
          secretIDFile := "", secretIDEnv := "", unwrap := false }
        (.ok (some ⟨"session-1"⟩))
      ∈ (Get scenarioDeps scenarioService 4 "tok-2" "kv" "app/db").trace) ∧
    ((Get scenarioDeps scenarioService 4 "tok-2" "kv" "app/db").trace.map Event.kind).count
      .secretIdFetch = 1 :=
  have h := Get_keeps_no_credentials scenarioDeps scenarioService 4 "tok-2" "kv" "app/db"
  have h0 := Get_keeps_no_credentials scenarioDeps scenarioService 0 "tok-1" "kv" "app/db"
  have hin : Event.login
      { mountPath := "approle", roleID := "role-abc", secretID := "secret-xyz",
        secretIDFile := "", secretIDEnv := "", unwrap := false }
      (.ok (some ⟨"session-1"⟩))
      ∈ (Get scenarioDeps scenarioService 4 "tok-2" "kv" "app/db").trace := by decide
  have hret : (GetCalls scenarioDeps scenarioService 0
      [("tok-1", "kv", "app/db"), ("tok-2", "kv", "app/db")]).outcome
      = .returned [scenarioSecret.Data, scenarioSecret.Data] := by decide
  ⟨rfl, hret, (h0.2.2.2.1 rfl _ _ hret).2.2.2,
    hin, (h.1 _ _ hin).elim fun _ h1 => h1.elim fun _ h2 => h2.elim fun _ h3 =>
      h3.elim fun _ h4 => h4.2.2.2.2.2⟩

/-! ## The credential -/

/-- C10: once both fetches of a `Get` call have succeeded, the credential is built from
exactly the role id and the secret id they returned (the latter as the `FromString`
source): either construction fails, and then the two fetches are the whole trace and the
call is fatal, or the next network call is the login with the credential built.  With
the constructor of the AppRole package, an empty role id or an empty secret id makes
construction fail: the call is fatal and makes neither login nor read. -/
theorem Get_credential_from_fetched_pair (rreq sreq : Request) (rc : RoleContainer)
    (sc : SecretContainer)
    (hin1 : Event.roleIdFetch rreq (.ok rc)
      ∈ (Get d t s token engineName secretName).trace)
    (hin2 : Event.secretIdFetch sreq (.ok sc)
      ∈ (Get d t s token engineName secretName).trace) :
    ((∃ e, d.NewAppRoleAuth rc.Data.Id
          { FromFile := "", FromEnv := "", FromString := sc.Data.Id } = .error e ∧
        (Get d t s token engineName secretName).trace
          = [.roleIdFetch rreq (.ok rc), .secretIdFetch sreq (.ok sc)] ∧
        (Get d t s token engineName secretName).outcome
          = .fatal ("Unable to initialize AppRole auth method: " ++ e)) ∨
      (∃ cred resp, d.NewAppRoleAuth rc.Data.Id
          { FromFile := "", FromEnv := "", FromString := sc.Data.Id } = .ok cred ∧
        (Get d t s token engineName secretName).trace.take 3
          = [.roleIdFetch rreq (.ok rc), .secretIdFetch sreq (.ok sc),
              .login cred resp])) ∧
    (d.NewAppRoleAuth = NewAppRoleAuth → rc.Data.Id = "" ∨ sc.Data.Id = "" →
      (∃ e, (Get d t s token engineName secretName).outcome
        = .fatal ("Unable to initialize AppRole auth method: " ++ e)) ∧
      (Get d t s token engineName secretName).trace
        = [.roleIdFetch rreq (.ok rc), .secretIdFetch sreq (.ok sc)] ∧
      ∀ ev ∈ (Get d t s token engineName secretName).trace,
        ev.kind ≠ .login ∧ ev.kind ≠ .read) := by
  have h := Get_after_fetches d t s token engineName secretName rreq sreq rc sc hin1 hin2
  refine ⟨h, fun hlib hempty => ?_⟩
  obtain ⟨e, he⟩ := NewAppRoleAuth_refuses_empty rc.Data.Id sc.Data.Id hempty
  rw [← hlib] at he
  rcases h with ⟨e2, _, htr, hout⟩ | ⟨cred, _, hok, _⟩
  · refine ⟨⟨e2, hout⟩, htr, ?_⟩
    rw [htr]
    simp [Event.kind]
  · rw [he] at hok
    exact Except.noConfusion hok

/-- A role-id endpoint that answers with an empty id, and a secret-id endpoint that
answers with an empty id: in both worlds the fetches succeed, the call is fatal at the
construction of the credential, and the trace holds the two fetches only. -/
theorem Get_credential_from_fetched_pair_witness :
    (Event.roleIdFetch (roleIdRequest ⟨roleIdUrl scenarioOptions⟩ "tok-1") (.ok ⟨⟨""⟩⟩)
        ∈ (Get scenarioDeps (fixedService scenarioOptions (.ok ⟨⟨""⟩⟩) (.ok ⟨⟨"secret-xyz"⟩⟩))
            0 "tok-1" "kv" "app/db").trace ∧
      Event.secretIdFetch (secretIdRequest ⟨secretIdUrl scenarioOptions⟩ "tok-1") (.ok ⟨⟨"secret-xyz"⟩⟩)
        ∈ (Get scenarioDeps (fixedService scenarioOptions (.ok ⟨⟨""⟩⟩) (.ok ⟨⟨"secret-xyz"⟩⟩))
            0 "tok-1" "kv" "app/db").trace ∧
      (Get scenarioDeps (fixedService scenarioOptions (.ok ⟨⟨""⟩⟩) (.ok ⟨⟨"secret-xyz"⟩⟩))
          0 "tok-1" "kv" "app/db").trace
        = [.roleIdFetch (roleIdRequest ⟨roleIdUrl scenarioOptions⟩ "tok-1") (.ok ⟨⟨""⟩⟩),
            .secretIdFetch (secretIdRequest ⟨secretIdUrl scenarioOptions⟩ "tok-1") (.ok ⟨⟨"secret-xyz"⟩⟩)]) ∧
    (Event.roleIdFetch (roleIdRequest ⟨roleIdUrl scenarioOptions⟩ "tok-1") (.ok ⟨⟨"role-abc"⟩⟩)
        ∈ (Get scenarioDeps (fixedService scenarioOptions (.ok ⟨⟨"role-abc"⟩⟩) (.ok ⟨⟨""⟩⟩))
            0 "tok-1" "kv" "app/db").trace ∧
      Event.secretIdFetch (secretIdRequest ⟨secretIdUrl scenarioOptions⟩ "tok-1") (.ok ⟨⟨""⟩⟩)
        ∈ (Get scenarioDeps (fixedService scenarioOptions (.ok ⟨⟨"role-abc"⟩⟩) (.ok ⟨⟨""⟩⟩))
            0 "tok-1" "kv" "app/db").trace ∧
      ∃ e, (Get scenarioDeps (fixedService scenarioOptions (.ok ⟨⟨"role-abc"⟩⟩) (.ok ⟨⟨""⟩⟩))
          0 "tok-1" "kv" "app/db").outcome
        = .fatal ("Unable to initialize AppRole auth method: " ++ e)) :=
  ⟨⟨by decide, by decide,
      ((Get_credential_from_fetched_pair scenarioDeps
        (fixedService scenarioOptions (.ok ⟨⟨""⟩⟩) (.ok ⟨⟨"secret-xyz"⟩⟩)) 0 "tok-1" "kv" "app/db"
        (roleIdRequest ⟨roleIdUrl scenarioOptions⟩ "tok-1") (secretIdRequest ⟨secretIdUrl scenarioOptions⟩ "tok-1")
        ⟨⟨""⟩⟩ ⟨⟨"secret-xyz"⟩⟩ (by decide) (by decide)).2 rfl (Or.inl rfl)).2.1⟩,
    ⟨by decide, by decide,
      ((Get_credential_from_fetched_pair scenarioDeps
        (fixedService scenarioOptions (.ok ⟨⟨"role-abc"⟩⟩) (.ok ⟨⟨""⟩⟩)) 0 "tok-1" "kv" "app/db"
        (roleIdRequest ⟨roleIdUrl scenarioOptions⟩ "tok-1") (secretIdRequest ⟨secretIdUrl scenarioOptions⟩ "tok-1")
        ⟨⟨"role-abc"⟩⟩ ⟨⟨""⟩⟩ (by decide) (by decide)).2 rfl (Or.inr rfl)).1⟩⟩

end Contract

end VaultClient
